import Mathlib

/-!
Verification of the core logic of the Lumon plant app.

The functions embedded here are translated from `src/app.py` (and, for
`is_botanical_question`, from the Android-asset variant
`src/Lumon-apk/app/src/main/assets/www/app.py`, lines 502-526, whose rule the
claims describe; the `src/app.py` variant at lines 1116-1154 instead uses
difflib fuzzy matching and is noted where relevant):

* `get_plant_details` (src/app.py lines 90-161): static plant-facts lookup.
* `identify_plant_local` (src/app.py lines 316-753): the 112x112
  color-ratio classifier, its unconditional early return, and the
  catch-all fallback path.
* the `/chat` endpoint's shortcut chain and history truncation
  (src/app.py lines 932-1114).

Modelling conventions: Python strings are Lean `String` (ASCII lowercasing;
every vocabulary word involved is ASCII); machine integers are `Nat`; floats
are `ℚ` (every threshold involved is exactly representable, and no reachable
pixel-count fraction lies within float rounding error of a threshold, since
denominators are 12544); the `random` module is modelled as an explicit
injectable source `RandSrc` threaded through the classifier, per the spec
section 4.1 requirement that randomness be isolated behind an injectable
source (`choice` is the index drawn by `random.choice`, `jitter` the value
drawn by `random.uniform(-10, 15)` together with its contract bounds).
`round1` models Python `round(x, 1)`; it uses round-half-up where Python
uses round-half-even, which differ only at exact .05 ties, and no statement
below depends on tie behaviour.
-/

/-- Prefix test on character lists (Python string matching helper). -/
def isPrefixChars : List Char → List Char → Bool
  | [], _ => true
  | _ :: _, [] => false
  | p :: ps, c :: cs => p == c && isPrefixChars ps cs

/-- Contiguous-substring test on character lists: second list occurs in first. -/
def hasSubChars : List Char → List Char → Bool
  | [], pat => pat.isEmpty
  | c :: cs, pat => isPrefixChars pat (c :: cs) || hasSubChars cs pat

/-- Python `pat in s`: contiguous substring containment. -/
def strContains (s pat : String) : Bool := hasSubChars s.toList pat.toList

/-- ASCII lowercase of one character (Python `str.lower` on ASCII data). -/
def lowerChar (c : Char) : Char :=
  if 'A' ≤ c ∧ c ≤ 'Z' then Char.ofNat (c.toNat + 32) else c

/-- Python `s.lower()` (ASCII). -/
def lowerStr (s : String) : String := String.mk (s.toList.map lowerChar)

/-- Python `s.strip()`: drop leading and trailing whitespace. -/
def stripStr (s : String) : String :=
  String.mk (((s.toList.dropWhile Char.isWhitespace).reverse.dropWhile
    Char.isWhitespace).reverse)

/-- Helper for `splitWords`: first argument is the current word, reversed. -/
def splitWordsAux : List Char → List Char → List String
  | cur, [] => if cur.isEmpty then [] else [String.mk cur.reverse]
  | cur, c :: cs =>
    if c.isWhitespace then
      if cur.isEmpty then splitWordsAux [] cs
      else String.mk cur.reverse :: splitWordsAux [] cs
    else splitWordsAux (c :: cur) cs

/-- Python `s.split()`: split on whitespace runs, dropping empty pieces. -/
def splitWords (s : String) : List String := splitWordsAux [] s.toList

/-- Static plant record held in `get_plant_details`' database
(src/app.py lines 93-161). The Python dict fields are `family`, `region`,
`toxicity`, `edible`, `diseases` (the hazards list), `care_tips`. -/
structure PlantProfile where
  family : String
  region : String
  toxicity : Nat
  edible : Bool
  diseases : List String
  care_tips : String
deriving DecidableEq

/-- The fixed plant database of `get_plant_details` (src/app.py lines 93-142),
as an association list in Python dict insertion order. -/
def plant_details_db : List (String × PlantProfile) :=
  [("Monstera deliciosa",
    { family := "Araceae", region := "Central America", toxicity := 85,
      edible := false,
      diseases := ["Skin irritation", "Mouth swelling if ingested",
        "Kidney stones from oxalates"],
      care_tips := "Bright indirect light, water when top soil is dry, high humidity preferred" }),
   ("Epipremnum aureum",
    { family := "Araceae", region := "Southeast Asia", toxicity := 75,
      edible := false,
      diseases := ["Oral irritation", "Difficulty swallowing",
        "Vomiting if consumed"],
      care_tips := "Low to bright indirect light, water when soil is dry, very adaptable" }),
   ("Malus domestica",
    { family := "Rosaceae", region := "Central Asia", toxicity := 10,
      edible := true,
      diseases := ["Seeds contain cyanogenic compounds - avoid consuming in large quantities"],
      care_tips := "Full sun, well-draining soil, regular watering, annual pruning in late winter" }),
   ("Ficus lyrata",
    { family := "Moraceae", region := "West Africa", toxicity := 60,
      edible := false,
      diseases := ["Latex allergies", "Skin rashes", "Respiratory irritation"],
      care_tips := "Bright indirect light, consistent watering, avoid moving frequently" }),
   ("Aloe barbadensis",
    { family := "Asphodelaceae", region := "Arabian Peninsula", toxicity := 20,
      edible := true,
      diseases := ["Laxative effects if consumed in large amounts",
        "Skin sensitivity in rare cases"],
      care_tips := "Bright light, water deeply but infrequently, well-draining soil" }),
   ("Ocimum basilicum",
    { family := "Lamiaceae", region := "India", toxicity := 5,
      edible := true,
      diseases := ["Generally safe",
        "Possible blood thinning with excessive consumption"],
      care_tips := "Full sun, regular watering, pinch flowers to encourage leaf growth" })]

/-- The default profile returned for unknown plants
(src/app.py lines 154-161). -/
def defaultProfile : PlantProfile :=
  { family := "Unknown", region := "Various", toxicity := 50, edible := false,
    diseases := ["Unknown toxicity - avoid ingestion", "Possible skin irritation"],
    care_tips := "Provide appropriate light and water based on plant type" }

/-- `get_plant_details` (src/app.py lines 90-161): exact dict-key match first,
then the first entry (in insertion order) such that any word of the lowered
query occurs inside the lowered key, else the default profile. -/
def get_plant_details (plant_name : String) : PlantProfile :=
  match plant_details_db.find? (fun e => e.1 == plant_name) with
  | some e => e.2
  | none =>
    match plant_details_db.find? (fun e =>
        (splitWords (lowerStr plant_name)).any
          (fun word => strContains (lowerStr e.1) word)) with
    | some e => e.2
    | none => defaultProfile

/-- An RGB pixel with 8-bit channels, as produced by `img.getdata()`. -/
def Pixel : Type := Nat × Nat × Nat

instance : DecidableEq Pixel := by unfold Pixel; infer_instance

/-- The three color buckets counted by the 112x112 analysis loop
(src/app.py lines 330-339). -/
inductive ColorBucket
  | green
  | red
  | yellow
deriving DecidableEq

/-- The per-pixel if/elif chain of the 112x112 analysis
(src/app.py lines 333-339): each pixel lands in at most one bucket, and
pixels matching no threshold rule land in none. -/
def classifyPixel (p : Pixel) : Option ColorBucket :=
  let (r, g, b) := p
  if g > r ∧ g > b ∧ g > 80 then some ColorBucket.green
  else if r > g ∧ r > b ∧ r > 100 then some ColorBucket.red
  else if r > 150 ∧ g > 150 ∧ b < 100 then some ColorBucket.yellow
  else none

/-- Number of sampled pixels accumulated into one bucket
(`green_pixels`, `red_pixels`, `yellow_pixels` in the source). -/
def countBucket (ps : List Pixel) (c : ColorBucket) : Nat :=
  ps.countP (fun q => decide (classifyPixel q = some c))

/-- Per-bucket pixel fraction (`green_ratio` etc., src/app.py lines 341-343):
bucket count divided by `total_pixels = len(pixels)`. -/
def bucketFrac (ps : List Pixel) (c : ColorBucket) : ℚ :=
  (countBucket ps c : ℚ) / (ps.length : ℚ)

/-- Indicator used to state that a pixel is counted in a given bucket. -/
def bucketInd (p : Pixel) (c : ColorBucket) : Nat :=
  if classifyPixel p = some c then 1 else 0

/-- Injectable randomness source (spec section 4.1): `choice` is the index
drawn by `random.choice` (taken modulo the list length), `jitter` the value
drawn by `random.uniform(-10, 15)` with its contract bounds. -/
structure RandSrc where
  choice : Nat
  jitter : ℚ
  jitter_lb : -10 ≤ jitter
  jitter_ub : jitter ≤ 15

/-- A concrete randomness source used by witnesses. -/
def rngZero : RandSrc :=
  { choice := 0, jitter := 0, jitter_lb := by norm_num, jitter_ub := by norm_num }

/-- A randomness source whose `random.choice` draws index 2. -/
def rngTwo : RandSrc :=
  { choice := 2, jitter := 0, jitter_lb := by norm_num, jitter_ub := by norm_num }

/-- `random.choice(l)` under the injected source: element at the drawn index. -/
def pick {α : Type} [Inhabited α] (rng : RandSrc) (l : List α) : α :=
  l.getD (rng.choice % l.length) default

/-- Python `round(x, 1)` (round-half-even in Python; half-up here, the two
agree except at exact .05 ties, on which nothing below depends). -/
def round1 (x : ℚ) : ℚ := ((round (10 * x) : ℤ) : ℚ) / 10

/-- The flattened result dict of `identify_plant_local`
(src/app.py lines 385-396 and 742-753). -/
structure ClassificationResult where
  plant_name : String
  scientific_name : String
  confidence : ℚ
  family : String
  description : String
  region : String
  toxicity : Nat
  edible : Bool
  diseases : List String
  care_tips : String
deriving DecidableEq

/-- Key names of the dict returned on the successful analysis path
(src/app.py lines 385-396), in source order. -/
def genuineResultKeys : List String :=
  ["plant_name", "scientific_name", "confidence", "family", "description",
   "region", "toxicity", "edible", "diseases", "care_tips"]

/-- Key names of the dict returned on the exception fallback path
(src/app.py lines 742-753), in source order. -/
def fallbackResultKeys : List String :=
  ["plant_name", "confidence", "description", "scientific_name", "family",
   "region", "toxicity", "edible", "diseases", "care_tips"]

/-- Candidate list of the foliage branch (src/app.py lines 352-355). -/
def foliage_plants : List String :=
  ["Monstera deliciosa", "Epipremnum aureum", "Philodendron hederaceum",
   "Ficus lyrata", "Dracaena trifasciata", "Zamioculcas zamiifolia"]

/-- Candidate list of the flowering branch (src/app.py lines 360-363). -/
def flowering_plants : List String :=
  ["Spathiphyllum wallisii", "Anthurium andraeanum", "Saintpaulia ionantha",
   "Hibiscus rosa-sinensis", "Cyclamen persicum"]

/-- Candidate list of the succulent branch (src/app.py lines 368-371). -/
def succulents : List String :=
  ["Aloe barbadensis", "Crassula ovata", "Echeveria elegans",
   "Sedum morganianum", "Haworthia fasciata"]

/-- Candidate list of the general branch (src/app.py lines 376-378). -/
def general_plants : List String :=
  ["Pothos", "Snake Plant", "Peace Lily", "Rubber Plant", "Spider Plant"]

/-- All labels the 112x112 analysis can produce. -/
def allCandidates : List String :=
  foliage_plants ++ flowering_plants ++ succulents ++ general_plants

/-- Fallback list used when image decoding raises
(src/app.py lines 732-737): (name, description) pairs. -/
def fallback_plants : List (String × String) :=
  [("Pothos", "Hardy trailing vine perfect for beginners, tolerates low light conditions."),
   ("Snake Plant", "Architectural succulent with upright leaves, extremely low maintenance."),
   ("Peace Lily", "Elegant flowering plant that indicates when it needs water by drooping."),
   ("Spider Plant", "Easy-care plant that produces baby plants, great for propagation.")]

/-- The branch chain of src/app.py lines 350-380: selects the plant name and
the `confidence_base` value from the color ratios. (The initial
`confidence_base = 60` at line 347 is overwritten on every branch.) -/
def genuineChoice (rng : RandSrc) (ps : List Pixel) : String × ℚ :=
  if bucketFrac ps ColorBucket.green > 2/5 ∧ bucketFrac ps ColorBucket.red < 1/10 then
    (pick rng foliage_plants, 75)
  else if bucketFrac ps ColorBucket.red > 3/20 ∨ bucketFrac ps ColorBucket.yellow > 1/10 then
    (pick rng flowering_plants, 70)
  else if bucketFrac ps ColorBucket.green > 1/4 ∧ bucketFrac ps ColorBucket.green < 9/20 then
    (pick rng succulents, 65)
  else
    (pick rng general_plants, 55)

/-- Result of the first (112x112) analysis block on a decoded pixel grid,
ending at the unconditional `return` of src/app.py lines 385-396. -/
def firstBlockResult (rng : RandSrc) (ps : List Pixel) : ClassificationResult :=
  let pc := genuineChoice rng ps
  let plant_details := get_plant_details pc.1
  { plant_name := pc.1
    scientific_name := pc.1
    confidence := round1 (pc.2 + rng.jitter)
    family := plant_details.family
    description := "Quick analysis suggests this is " ++ pc.1
    region := plant_details.region
    toxicity := plant_details.toxicity
    edible := plant_details.edible
    diseases := plant_details.diseases
    care_tips := plant_details.care_tips }

/-- Result of the `except` fallback path (src/app.py lines 729-753). -/
def fallbackResult (rng : RandSrc) : ClassificationResult :=
  let pd := pick rng fallback_plants
  let plant_details := get_plant_details pd.1
  { plant_name := pd.1
    scientific_name := pd.1
    confidence := 3/5
    family := plant_details.family
    description := pd.2
    region := plant_details.region
    toxicity := plant_details.toxicity
    edible := plant_details.edible
    diseases := plant_details.diseases
    care_tips := plant_details.care_tips }

/-- `identify_plant_local` (src/app.py lines 316-753). The input is the
decoded 112x112 pixel grid (`some pixels`) or `none` when `Image.open`
raises, in which case the blanket `except` returns the fallback result. -/
def identify_plant_local (rng : RandSrc) (img : Option (List Pixel)) :
    ClassificationResult :=
  match img with
  | some pixels => firstBlockResult rng pixels
  | none => fallbackResult rng

/-- The first analysis block with its `return` modelled as an early exit
(`Except.error` carries the returned value; `Except.ok` would mean control
fell through to the statements after line 396). The block ends in an
unconditional `return`, so it always exits early. -/
def firstBlockE (rng : RandSrc) (ps : List Pixel) : Except ClassificationResult Unit :=
  Except.error (firstBlockResult rng ps)

/-- `identify_plant_local` with the dead 224x224 rule-table block
(src/app.py lines 397-727) retained, abstracted as `block2`: it would run
only if the first block fell through its `return`. -/
def identify_plant_local_full
    (block2 : RandSrc → List Pixel → ClassificationResult)
    (rng : RandSrc) (img : Option (List Pixel)) : ClassificationResult :=
  match img with
  | some pixels =>
    match firstBlockE rng pixels with
    | Except.error r => r
    | Except.ok _ => block2 rng pixels
  | none => fallbackResult rng

/-- The interrogative words of the lenient check
(Lumon-apk app.py line 522). -/
def interrogative_words : List String :=
  ["where", "what", "how", "why", "when", "which"]

/-- The botanical keyword list of the Android-asset variant
(Lumon-apk app.py lines 504-517), in source order. -/
def botanical_keywords : List String :=
  ["plant", "flower", "tree", "leaf", "leaves", "garden", "gardening",
   "botany", "botanical",
   "grow", "growing", "care", "water", "watering", "soil", "fertilizer",
   "pruning", "propagate",
   "succulent", "cactus", "herb", "vegetable", "fruit", "seed", "seeds",
   "bloom", "blooming",
   "houseplant", "indoor", "outdoor", "photosynthesis", "chlorophyll",
   "roots", "stem", "stems",
   "petal", "petals", "pollen", "pollination", "species", "variety",
   "cultivar", "hybrid",
   "perennial", "annual", "biennial", "evergreen", "deciduous", "tropical",
   "temperate",
   "light", "sunlight", "shade", "humidity", "temperature", "climate",
   "season", "seasonal",
   "repot", "repotting", "transplant", "mulch", "compost", "organic",
   "disease", "pest",
   "fungus", "bacteria", "virus", "nutrient", "nitrogen", "phosphorus",
   "potassium",
   "photosynthesis", "respiration", "transpiration", "germination",
   "phototropism",
   "where", "found", "native", "habitat", "region", "location", "these",
   "this", "what", "how", "why",
   "orchid", "rose", "fern", "bamboo", "palm", "moss", "algae", "fungi",
   "mushroom"]

/-- `is_botanical_question` from the Android-asset variant
(Lumon-apk app.py lines 502-526): short messages and messages containing an
interrogative word always pass; otherwise any keyword substring match passes.
(The `src/app.py` variant at lines 1116-1154 instead uses keyword substring
match plus difflib fuzzy matching and has no word-count shortcut.) -/
def is_botanical_question (message : String) : Bool :=
  if (splitWords message).length ≤ 5
      ∨ interrogative_words.any (fun word => strContains (lowerStr message) word) = true then
    true
  else
    botanical_keywords.any (fun keyword => strContains (lowerStr message) keyword)

/-- Chat turn author (`role` field of the session history entries). -/
inductive Role
  | user
  | bot
deriving DecidableEq

/-- One entry of `chat_sessions[session_id]['history']`. -/
structure ChatEntry where
  role : Role
  message : String
deriving DecidableEq

/-- Greeting shortcut list (src/app.py line 950). -/
def greetings : List String :=
  ["hi", "hello", "hey", "greetings", "good morning", "good afternoon",
   "good evening"]

/-- Identity-question shortcut list (src/app.py line 951). -/
def who_are_you_list : List String :=
  ["who are you", "what are you", "your name", "who r u"]

/-- Thanks shortcut list (src/app.py line 952). -/
def thanks_list : List String :=
  ["thank you", "thanks", "thx", "ty", "appreciate it", "much appreciated"]

/-- Farewell shortcut list (src/app.py line 953). -/
def farewells : List String :=
  ["bye", "goodbye", "see you", "see ya", "later", "farewell", "take care"]

/-- `message_lower = user_message.lower().strip()` (src/app.py line 955). -/
def messageLower (s : String) : String := stripStr (lowerStr s)

/-- The fixed greeting response (src/app.py line 958). -/
def greetingResponse : String :=
  "Hello! I'm Lumon, your botanical expert. How can I help you today?"

/-- The response chosen by the `/chat` endpoint's shortcut chain
(src/app.py lines 950-1097). The branches following the farewell shortcut
(follow-up context reuse, the botanical branch backed by external LLM calls,
and the off-topic table) are abstracted as `rest`, quantified over in every
theorem that uses this definition; the claims settled here concern only the
shortcut branches, which precede `rest` in the source's elif chain. -/
def chatResponse (rest : String → List ChatEntry → String)
    (user_message : String) (hist : List ChatEntry) : String :=
  if greetings.any (fun g => strContains (messageLower user_message) g) = true
      ∧ (splitWords (messageLower user_message)).length ≤ 4 then
    greetingResponse
  else if who_are_you_list.any (fun q => strContains (messageLower user_message) q) = true then
    "I'm Lumon, your AI-powered botanist. Ask me anything about plants, gardening, or botany!"
  else if thanks_list.any (fun t => strContains (messageLower user_message) t) = true then
    "You're welcome! If you have more questions about plants or gardening, just ask."
  else if farewells.any (fun f => strContains (messageLower user_message) f) = true then
    "Goodbye! Happy gardening!"
  else
    rest user_message hist

/-- The last `n` entries of a list (Python `l[-n:]`, for the truncation at
src/app.py line 1105). For lists of at most `n` entries this is the whole
list. -/
def lastN {α : Type} (n : Nat) (l : List α) : List α := l.drop (l.length - n)

/-- The truncation step of the `/chat` endpoint (src/app.py lines 1104-1105):
`if len(history) > 20: history = history[-20:]`. -/
def truncate20 (l : List ChatEntry) : List ChatEntry :=
  if l.length > 20 then l.drop (l.length - 20) else l

/-- One successful `/chat` call on a session: append the user turn
(line 946), append the bot turn (line 1100), truncate (lines 1104-1105).
`t.1` is the user message, `t.2` the computed response (arbitrary here: the
history invariants hold whatever response text is produced). -/
def chatStep (h : List ChatEntry) (t : String × String) : List ChatEntry :=
  truncate20 ((h ++ [{ role := Role.user, message := t.1 }]) ++
    [{ role := Role.bot, message := t.2 }])

/-- One call's effect on the untruncated transcript: append both turns. -/
def appendTurn (h : List ChatEntry) (t : String × String) : List ChatEntry :=
  (h ++ [{ role := Role.user, message := t.1 }]) ++
    [{ role := Role.bot, message := t.2 }]

/-- Session history after a sequence of successful `/chat` calls, starting
from the fresh session created at src/app.py line 944. -/
def runChat (turns : List (String × String)) : List ChatEntry :=
  turns.foldl chatStep []

/-- Full chronological transcript of a sequence of calls, untruncated. -/
def fullLog (turns : List (String × String)) : List ChatEntry :=
  turns.foldl appendTurn []

/-- A 112x112 decoded image whose pixels are all pure green, as produced by
resizing a solid-green photo: 12544 copies of (0, 255, 0). -/
def imgAllGreen : List Pixel := List.replicate 12544 ((0, 255, 0) : Pixel)

/-- A single green pixel, used as a tiny concrete pixel grid in witnesses. -/
def pxGreen : Pixel := ((0, 255, 0) : Pixel)

/-- Counting over a constant list evaluates the predicate once. -/
theorem countP_replicate {α : Type} (p : α → Bool) (n : Nat) (a : α) :
    (List.replicate n a).countP p = if p a then n else 0 := by
  induction n with
  | zero => simp
  | succ n ih =>
    rw [List.replicate_succ, List.countP_cons, ih]
    by_cases h : p a <;> simp [h]

/-- `random.choice` always returns an element of a nonempty list. -/
theorem pick_mem {α : Type} [Inhabited α] (rng : RandSrc) (l : List α)
    (h : l ≠ []) : pick rng l ∈ l := by
  unfold pick
  have hl : 0 < l.length := List.length_pos.mpr h
  have hm : rng.choice % l.length < l.length := Nat.mod_lt _ hl
  rw [List.getD_eq_getElem l default hm]
  exact List.getElem_mem hm

/-- Each pixel is counted in at most one of the three buckets. -/
theorem bucketInd_sum_le (p : Pixel) :
    bucketInd p ColorBucket.green + bucketInd p ColorBucket.red +
      bucketInd p ColorBucket.yellow ≤ 1 := by
  unfold bucketInd
  rcases h : classifyPixel p with _ | c
  · simp [h]
  · cases c <;> simp [h]

/-- Unfolding the bucket count over a cons cell yields the pixel indicator. -/
theorem countBucket_cons (p : Pixel) (ps : List Pixel) (c : ColorBucket) :
    countBucket (p :: ps) c = countBucket ps c + bucketInd p c := by
  simp [countBucket, List.countP_cons, bucketInd]

/-- Pixel indicators are zero or one. -/
theorem bucketInd_le_one (p : Pixel) (c : ColorBucket) : bucketInd p c ≤ 1 := by
  unfold bucketInd
  split <;> omega

/-- The three bucket counts together never exceed the number of pixels. -/
theorem countBucket_sum_le (ps : List Pixel) :
    countBucket ps ColorBucket.green + countBucket ps ColorBucket.red +
      countBucket ps ColorBucket.yellow ≤ ps.length := by
  induction ps with
  | nil => simp [countBucket]
  | cons p ps ih =>
    have hp := bucketInd_sum_le p
    rw [countBucket_cons, countBucket_cons, countBucket_cons, List.length_cons]
    omega

/-- A single bucket count never exceeds the number of pixels. -/
theorem countBucket_le_length (ps : List Pixel) (c : ColorBucket) :
    countBucket ps c ≤ ps.length := by
  induction ps with
  | nil => simp [countBucket]
  | cons p ps ih =>
    have hp := bucketInd_le_one p c
    rw [countBucket_cons, List.length_cons]
    omega

/-- Bucket fractions are nonnegative. -/
theorem bucketFrac_nonneg (ps : List Pixel) (c : ColorBucket) :
    0 ≤ bucketFrac ps c := by
  unfold bucketFrac
  positivity

/-- Bucket fractions are at most one on a nonempty pixel grid. -/
theorem bucketFrac_le_one (ps : List Pixel) (c : ColorBucket) (h : ps ≠ []) :
    bucketFrac ps c ≤ 1 := by
  unfold bucketFrac
  apply div_le_one_of_le
  · exact_mod_cast countBucket_le_length ps c
  · positivity

/-- The three bucket fractions sum to at most one. -/
theorem bucketFrac_sum_le_one (ps : List Pixel) (h : ps ≠ []) :
    bucketFrac ps ColorBucket.green + bucketFrac ps ColorBucket.red +
      bucketFrac ps ColorBucket.yellow ≤ 1 := by
  unfold bucketFrac
  rw [div_add_div_same, div_add_div_same]
  apply div_le_one_of_le
  · exact_mod_cast countBucket_sum_le ps
  · positivity

/-- The `confidence_base` of the analysis branch chain is one of
55, 65, 70, 75, hence between 55 and 75. -/
theorem genuineChoice_base (rng : RandSrc) (ps : List Pixel) :
    55 ≤ (genuineChoice rng ps).2 ∧ (genuineChoice rng ps).2 ≤ 75 := by
  unfold genuineChoice
  split_ifs <;> norm_num

/-- The analysis label always comes from one of the four candidate lists. -/
theorem genuineChoice_label_mem (rng : RandSrc) (ps : List Pixel) :
    (genuineChoice rng ps).1 ∈ allCandidates := by
  unfold genuineChoice allCandidates
  split_ifs
  · simp only [List.mem_append]
    exact Or.inl (Or.inl (Or.inl (pick_mem rng foliage_plants (by decide))))
  · simp only [List.mem_append]
    exact Or.inl (Or.inl (Or.inr (pick_mem rng flowering_plants (by decide))))
  · simp only [List.mem_append]
    exact Or.inl (Or.inr (pick_mem rng succulents (by decide)))
  · simp only [List.mem_append]
    exact Or.inr (pick_mem rng general_plants (by decide))

/-- The rounded confidence of the analysis path lies between 44 and 100
(it is `round(base + jitter, 1)` with base in [55, 75] and jitter in
[-10, 15]). -/
theorem firstBlock_conf_bounds (rng : RandSrc) (ps : List Pixel) :
    44 ≤ (firstBlockResult rng ps).confidence ∧
      (firstBlockResult rng ps).confidence ≤ 100 := by
  have hb := genuineChoice_base rng ps
  have hj1 := rng.jitter_lb
  have hj2 := rng.jitter_ub
  have habs := abs_sub_round (10 * ((genuineChoice rng ps).2 + rng.jitter))
  rw [abs_le] at habs
  show 44 ≤ round1 ((genuineChoice rng ps).2 + rng.jitter) ∧
    round1 ((genuineChoice rng ps).2 + rng.jitter) ≤ 100
  unfold round1
  constructor
  · rw [le_div_iff (by norm_num : (0:ℚ) < 10)]
    linarith [habs.2, hb.1]
  · rw [div_le_iff (by norm_num : (0:ℚ) < 10)]
    linarith [habs.1, hb.2]

/-- On the all-green image every pixel lands in the green bucket. -/
theorem classify_pxGreen :
    classifyPixel ((0, 255, 0) : Pixel) = some ColorBucket.green := by decide

/-- Green fraction of the all-green 112x112 image is one. -/
theorem imgAllGreen_green : bucketFrac imgAllGreen ColorBucket.green = 1 := by
  unfold bucketFrac countBucket imgAllGreen
  rw [countP_replicate, List.length_replicate]
  norm_num [classify_pxGreen]

/-- Red fraction of the all-green 112x112 image is zero. -/
theorem imgAllGreen_red : bucketFrac imgAllGreen ColorBucket.red = 0 := by
  unfold bucketFrac countBucket imgAllGreen
  rw [countP_replicate, List.length_replicate]
  norm_num [classify_pxGreen]
  decide

/-- The `/chat` truncation step is exactly keeping the last 20 entries. -/
theorem truncate20_eq_lastN (l : List ChatEntry) : truncate20 l = lastN 20 l := by
  unfold truncate20 lastN
  split_ifs with h
  · rfl
  · have h0 : l.length - 20 = 0 := by omega
    rw [h0, List.drop_zero]

/-- Keeping the last `n` entries before appending and keeping the last `n`
afterwards is the same as appending and then keeping the last `n`. -/
theorem lastN_lastN_append {α : Type} (n : Nat) (L rest : List α) :
    lastN n (lastN n L ++ rest) = lastN n (L ++ rest) := by
  unfold lastN
  rw [← List.drop_append_of_le_length (Nat.sub_le L.length n)]
  rw [List.drop_drop]
  congr 1
  simp only [List.length_drop, List.length_append]
  omega

/-- Running `/chat` calls from a truncated history tracks the truncation of
the untruncated transcript. -/
theorem foldl_chatStep_lastN (ts : List (String × String)) :
    ∀ L : List ChatEntry,
      ts.foldl chatStep (lastN 20 L) = lastN 20 (ts.foldl appendTurn L) := by
  induction ts with
  | nil => intro L; rfl
  | cons t ts ih =>
    intro L
    rw [List.foldl_cons, List.foldl_cons]
    have hstep : chatStep (lastN 20 L) t = lastN 20 (appendTurn L t) := by
      unfold chatStep appendTurn
      rw [truncate20_eq_lastN, List.append_assoc, List.append_assoc]
      exact lastN_lastN_append 20 L _
    rw [hstep, ih]

/-- The untruncated transcript grows by two entries per call. -/
theorem fullLog_build (ts : List (String × String)) :
    ∀ L : List ChatEntry,
      (ts.foldl appendTurn L).length = L.length + 2 * ts.length := by
  induction ts with
  | nil => intro L; simp
  | cons t ts ih =>
    intro L
    rw [List.foldl_cons, ih]
    simp [appendTurn]
    omega

/-- C1 (counterexample): on a decodable, solid-green image, with a randomness
source drawing index 2, `identify_plant_local` labels the image
"Philodendron hederaceum", which is neither a key of `get_plant_details`'
fixed table nor the literal "Unknown" sentinel. -/
theorem c1_counterexample :
    (identify_plant_local rngTwo (some imgAllGreen)).plant_name =
      "Philodendron hederaceum" ∧
    "Philodendron hederaceum" ∉ plant_details_db.map Prod.fst ∧
    "Philodendron hederaceum" ≠ "Unknown" := by
  refine ⟨?_, by decide, by decide⟩
  show (genuineChoice rngTwo imgAllGreen).1 = "Philodendron hederaceum"
  have hcond : bucketFrac imgAllGreen ColorBucket.green > 2/5 ∧
      bucketFrac imgAllGreen ColorBucket.red < 1/10 := by
    rw [imgAllGreen_green, imgAllGreen_red]
    norm_num
  unfold genuineChoice
  rw [if_pos hcond]
  rfl

/-- C1 (amended): for every decodable image (nonempty pixel grid) and every
randomness draw, `identify_plant_local` returns a label drawn from its own
four hardcoded candidate lists (which include names absent from the
`get_plant_details` table), and its confidence lies in the declared
0 to 100 percent range. -/
theorem c1_amended (rng : RandSrc) (ps : List Pixel) (hne : ps ≠ []) :
    (identify_plant_local rng (some ps)).plant_name ∈ allCandidates ∧
    0 ≤ (identify_plant_local rng (some ps)).confidence ∧
    (identify_plant_local rng (some ps)).confidence ≤ 100 := by
  have hc := firstBlock_conf_bounds rng ps
  have h44 : (44 : ℚ) ≤ (identify_plant_local rng (some ps)).confidence := hc.1
  have h100 : (identify_plant_local rng (some ps)).confidence ≤ 100 := hc.2
  exact ⟨genuineChoice_label_mem rng ps, by linarith, h100⟩

/-- C1 (witness): the amended statement instantiated on a one-pixel grid. -/
theorem c1_amended_witness :
    (([pxGreen] : List Pixel) ≠ []) ∧
    ((identify_plant_local rngZero (some [pxGreen])).plant_name ∈ allCandidates ∧
      0 ≤ (identify_plant_local rngZero (some [pxGreen])).confidence ∧
      (identify_plant_local rngZero (some [pxGreen])).confidence ≤ 100) :=
  ⟨by simp, c1_amended rngZero [pxGreen] (by simp)⟩

/-- C2 (counterexample): neither the fallback result dict nor the genuine
analysis result dict of `identify_plant_local` carries a `source` key, so the
fallback is not distinguishable from a genuine classification via a source
tag (unlike `identify_plant_with_plantnet`, whose dict has one). -/
theorem c2_counterexample :
    "source" ∉ fallbackResultKeys ∧ "source" ∉ genuineResultKeys := by
  constructor <;> decide

/-- C2 (amended): `identify_plant_local` never propagates a decode failure:
on any failed decode it returns a result labelled with one of the four
hardcoded houseplants (Pothos, Snake Plant, Peace Lily, Spider Plant) at
fixed confidence 0.6; the result record carries no source tag, but the
fallback is distinguishable from every genuine classification by its
confidence value, since genuine confidences always exceed 0.6. -/
theorem c2_amended :
    (∀ rng : RandSrc,
      (identify_plant_local rng none).plant_name ∈
        ["Pothos", "Snake Plant", "Peace Lily", "Spider Plant"] ∧
      (identify_plant_local rng none).confidence = 3/5) ∧
    (∀ (rng : RandSrc) (ps : List Pixel), ps ≠ [] →
      (identify_plant_local rng (some ps)).confidence ≠ 3/5) := by
  constructor
  · intro rng
    constructor
    · show (pick rng fallback_plants).1 ∈ _
      have hm : (pick rng fallback_plants).1 ∈ fallback_plants.map Prod.fst :=
        List.mem_map_of_mem Prod.fst (pick_mem rng fallback_plants (by decide))
      simpa [fallback_plants] using hm
    · rfl
  · intro rng ps _ heq
    have h44 : (44 : ℚ) ≤ (firstBlockResult rng ps).confidence :=
      (firstBlock_conf_bounds rng ps).1
    have heq' : (firstBlockResult rng ps).confidence = 3/5 := heq
    rw [heq'] at h44
    norm_num at h44

/-- C2 (witness): the genuine-path part of the amended statement
instantiated on a one-pixel grid. -/
theorem c2_amended_witness :
    (([pxGreen] : List Pixel) ≠ []) ∧
    (identify_plant_local rngZero (some [pxGreen])).confidence ≠ 3/5 :=
  ⟨by simp, c2_amended.2 rngZero [pxGreen] (by simp)⟩

/-- C3: for every sequence of successful `/chat` calls on one session, the
history equals the last 20 entries of the chronological transcript (each call
appends the user turn then the bot turn before truncating), its length is
`min (2 * calls) 20`, hence at most 20 after every call; in particular after
25 calls it is exactly 20. -/
theorem c3_history_window :
    (∀ turns : List (String × String),
      runChat turns = lastN 20 (fullLog turns) ∧
      (runChat turns).length = min (2 * turns.length) 20) ∧
    (∀ turns : List (String × String), turns.length = 25 →
      (runChat turns).length = 20) := by
  have key : ∀ turns : List (String × String),
      runChat turns = lastN 20 (fullLog turns) := by
    intro turns
    unfold runChat fullLog
    exact foldl_chatStep_lastN turns []
  have keylen : ∀ turns : List (String × String),
      (runChat turns).length = min (2 * turns.length) 20 := by
    intro turns
    rw [key turns]
    unfold lastN
    rw [List.length_drop]
    have hlen : (fullLog turns).length = 2 * turns.length := by
      unfold fullLog
      rw [fullLog_build]
      simp
    rw [hlen]
    omega
  refine ⟨fun t => ⟨key t, keylen t⟩, fun t h => ?_⟩
  rw [keylen t, h]
  omega

/-- C3 (witness): 25 concrete calls leave exactly 20 history entries. -/
theorem c3_witness :
    (List.replicate 25 (("a", "b") : String × String)).length = 25 ∧
    (runChat (List.replicate 25 (("a", "b") : String × String))).length = 20 :=
  ⟨by simp, c3_history_window.2 _ (by simp)⟩

/-- C4 (counterexample): the claim asserts that
`isInDomain("what is the capital of France")` is false, but
`is_botanical_question` returns true on it (the message contains the
interrogative word "what", which the lenient check always passes). -/
theorem c4_counterexample :
    is_botanical_question "what is the capital of France" = true := by rfl

/-- C4 (amended): `is_botanical_question` returns true exactly when the
message has at most 5 words, or contains an interrogative word, or contains
a botanical keyword as a case-insensitive substring; in particular both
"where do pothos grow?" and "what is the capital of France" return true
(the claim's expectation of false on the latter contradicts its own rule). -/
theorem c4_amended :
    (∀ msg : String, is_botanical_question msg = true ↔
      ((splitWords msg).length ≤ 5 ∨
        interrogative_words.any (fun word => strContains (lowerStr msg) word) = true ∨
        botanical_keywords.any (fun keyword => strContains (lowerStr msg) keyword) = true)) ∧
    is_botanical_question "where do pothos grow?" = true := by
  constructor
  · intro msg
    unfold is_botanical_question
    split_ifs with h
    · constructor
      · intro _
        rcases h with h1 | h2
        · exact Or.inl h1
        · exact Or.inr (Or.inl h2)
      · intro _
        rfl
    · constructor
      · intro hb
        exact Or.inr (Or.inr hb)
      · rintro (h1 | h2 | h3)
        · exact absurd (Or.inl h1) h
        · exact absurd (Or.inr h2) h
        · exact h3
  · rfl

/-- C4 (witness): the amended equivalence exercised at a concrete message. -/
theorem c4_amended_witness : is_botanical_question "hi" = true :=
  (c4_amended.1 "hi").mpr (Or.inl (by decide))

/-- C5 (counterexample): the default profile returned for an unmatched query
does not have the single-element hazards list the claim states; its
`diseases` list has two entries (and uses a plain hyphen). -/
theorem c5_counterexample :
    (get_plant_details "some unknown plant xyz").diseases ≠
      ["Unknown toxicity — avoid ingestion"] := by decide

/-- C5 (amended): `get_plant_details` never fails; exact match first (for
example "Monstera deliciosa"), else a case-insensitive any-word substring
match against the stored keys (for example "golden aureum plant" matches
"Epipremnum aureum"), else exactly the fixed default profile with family
"Unknown", region "Various", toxicity 50, edible false, hazards
["Unknown toxicity - avoid ingestion", "Possible skin irritation"], and the
stated care tip. -/
theorem c5_amended :
    get_plant_details "some unknown plant xyz" =
      { family := "Unknown", region := "Various", toxicity := 50,
        edible := false,
        diseases := ["Unknown toxicity - avoid ingestion",
          "Possible skin irritation"],
        care_tips := "Provide appropriate light and water based on plant type" } ∧
    (get_plant_details "Monstera deliciosa").family = "Araceae" ∧
    (get_plant_details "golden aureum plant").region = "Southeast Asia" := by
  refine ⟨by decide, by decide, by decide⟩

/-- C6: with the randomness isolated behind the injectable source `RandSrc`,
`identify_plant_local` is deterministic: two calls with equal sources and
equal decoded images return identical results. -/
theorem c6_deterministic (rng1 rng2 : RandSrc) (img1 img2 : Option (List Pixel))
    (h1 : rng1 = rng2) (h2 : img1 = img2) :
    identify_plant_local rng1 img1 = identify_plant_local rng2 img2 := by
  rw [h1, h2]

/-- C6 (witness): determinism instantiated at a concrete source and image. -/
theorem c6_witness :
    rngZero = rngZero ∧
    identify_plant_local rngZero (some [pxGreen]) =
      identify_plant_local rngZero (some [pxGreen]) :=
  ⟨rfl, c6_deterministic rngZero rngZero (some [pxGreen]) (some [pxGreen]) rfl rfl⟩

/-- C7: every sampled pixel is counted in at most one of the green, red and
yellow buckets (pixels matching no threshold rule are counted in none), each
bucket fraction lies in [0, 1] on a decodable (nonempty) grid, and the three
fractions sum to at most 1. -/
theorem c7_bucket_partition :
    (∀ p : Pixel,
      bucketInd p ColorBucket.green + bucketInd p ColorBucket.red +
        bucketInd p ColorBucket.yellow ≤ 1) ∧
    (∀ ps : List Pixel, ps ≠ [] →
      (0 ≤ bucketFrac ps ColorBucket.green ∧ bucketFrac ps ColorBucket.green ≤ 1) ∧
      (0 ≤ bucketFrac ps ColorBucket.red ∧ bucketFrac ps ColorBucket.red ≤ 1) ∧
      (0 ≤ bucketFrac ps ColorBucket.yellow ∧ bucketFrac ps ColorBucket.yellow ≤ 1) ∧
      bucketFrac ps ColorBucket.green + bucketFrac ps ColorBucket.red +
        bucketFrac ps ColorBucket.yellow ≤ 1) := by
  refine ⟨bucketInd_sum_le, fun ps h => ?_⟩
  exact ⟨⟨bucketFrac_nonneg ps _, bucketFrac_le_one ps _ h⟩,
    ⟨bucketFrac_nonneg ps _, bucketFrac_le_one ps _ h⟩,
    ⟨bucketFrac_nonneg ps _, bucketFrac_le_one ps _ h⟩,
    bucketFrac_sum_le_one ps h⟩

/-- C7 (witness): the fraction bounds instantiated on a one-pixel grid. -/
theorem c7_witness :
    (([pxGreen] : List Pixel) ≠ []) ∧
    bucketFrac [pxGreen] ColorBucket.green + bucketFrac [pxGreen] ColorBucket.red +
      bucketFrac [pxGreen] ColorBucket.yellow ≤ 1 :=
  ⟨by simp, (c7_bucket_partition.2 [pxGreen] (by simp)).2.2.2⟩

/-- C8: the second, 224x224 rule-table block after the unconditional return
of the first analysis block is unreachable: whatever function `block2` that
dead block denotes, `identify_plant_local` with the block retained is
extensionally equal to `identify_plant_local` with it deleted. -/
theorem c8_dead_block_unreachable
    (block2 : RandSrc → List Pixel → ClassificationResult)
    (rng : RandSrc) (img : Option (List Pixel)) :
    identify_plant_local_full block2 rng img = identify_plant_local rng img := by
  cases img <;> rfl

/-- C9: the greeting shortcut is the first branch of the `/chat` chain and
ignores the session history: whatever the later branches (`rest`) and the
history, `respond("hi", session)` is the fixed greeting string. -/
theorem c9_greeting_fixed (rest : String → List ChatEntry → String)
    (hist : List ChatEntry) :
    chatResponse rest "hi" hist = greetingResponse := rfl

/-- C10: because the greeting shortcut tests substring containment, any
message of at most 4 words whose lowered text contains "hi" or "hey"
anywhere (even inside a longer word such as "this") gets the fixed greeting,
regardless of the session history and of every later branch. -/
theorem c10_greeting_substring (rest : String → List ChatEntry → String)
    (msg : String) (hist : List ChatEntry)
    (hlen : (splitWords (messageLower msg)).length ≤ 4)
    (hsub : strContains (messageLower msg) "hi" = true ∨
      strContains (messageLower msg) "hey" = true) :
    chatResponse rest msg hist = greetingResponse := by
  have hc : greetings.any (fun g => strContains (messageLower msg) g) = true ∧
      (splitWords (messageLower msg)).length ≤ 4 := by
    refine ⟨List.any_eq_true.mpr ?_, hlen⟩
    rcases hsub with h | h
    · exact ⟨"hi", by decide, h⟩
    · exact ⟨"hey", by decide, h⟩
  unfold chatResponse
  rw [if_pos hc]

/-- C10 (witness): the message "this" contains "hi" inside a longer word and
receives the greeting. -/
theorem c10_witness :
    ((splitWords (messageLower "this")).length ≤ 4 ∧
      strContains (messageLower "this") "hi" = true) ∧
    chatResponse (fun _ _ => "") "this" [] = greetingResponse :=
  ⟨⟨by decide, by decide⟩,
    c10_greeting_substring (fun _ _ => "") "this" [] (by decide)
      (Or.inl (by decide))⟩
